import Mathlib

/-
Shallow embedding of src/server-ba.js (an Express server brokering a
PayPal billing-agreement flow).

Modelling choices:
  * JSON values (request bodies, parsed provider responses) are `JVal`.
    JavaScript truthiness is `JVal.truthy`; an absent object property
    (JS `undefined`) is `Option.none`.
  * Each outbound `fetch` is modelled by its observed response, an
    `HttpResp` carrying `ok` (`r.ok`), `status`, the raw body `text`
    and `json`, the value `JSON.parse text` denotes when the handler
    parses it.  A handler execution performs at most two fetches (the
    OAuth token call inside `getAccessToken` and one API call inside
    `pp`), so the remote world seen by one execution is an `Env` of two
    responses.
  * Handlers return a `HandlerResult`: HTTP status, JSON body, and the
    list of outbound calls actually performed (used to state the
    "no outbound call happens" properties).
  * `express.json()` runs in strict mode, so a request body is a JSON
    object or array, never a bare `null`; property access on a
    non-object non-null value is modelled as `none` (JS `undefined`).
    A provider response body can parse to JSON `null`, and property
    access on `null` throws a TypeError in JS; the handlers' accesses
    to parsed response values (`tokenRes.links`, `agr.id`, `order.id`)
    therefore check `JVal.isNull` first and take the catch path.  The
    modelled TypeError messages omit the quotes Node puts around the
    property name.
  * The environment variables read by the config endpoint are a
    `Config`; the client credentials used inside the Basic header of
    the token call do not influence any observable modelled here.
-/

namespace ServerBA

/-- A JSON value, as produced by `express.json()` or `JSON.parse`. -/
inductive JVal where
  | null : JVal
  | bool : Bool → JVal
  | str : String → JVal
  | num : Int → JVal
  | arr : List JVal → JVal
  | obj : List (String × JVal) → JVal


/-- JavaScript truthiness of a JSON value. -/
def JVal.truthy : JVal → Bool
  | .null => false
  | .bool b => b
  | .str s => s ≠ ""
  | .num n => n ≠ 0
  | .arr _ => true
  | .obj _ => true

/-- Whether a JSON value is JS `null`; property access on it throws a
TypeError instead of yielding `undefined`. -/
def JVal.isNull : JVal → Bool
  | .null => true
  | _ => false

/-- Property access `v.k` on a non-null value: the first binding of
`k` when `v` is an object, otherwise JS `undefined` (`none`).  Access
on a `null` value throws and is modelled at each access site via
`JVal.isNull`. -/
def jGet : JVal → String → Option JVal
  | .obj fields, k => fields.lookup k
  | _, _ => none

/-- Truthiness of a possibly-undefined value (`undefined` is falsy). -/
def truthyOpt : Option JVal → Bool
  | some v => v.truthy
  | none => false

/-- JS `a || d` where `a` may be `undefined`. -/
def jsOr (a : Option JVal) (d : JVal) : JVal :=
  match a with
  | some v => if v.truthy then v else d
  | none => d

/-- JS `a || b` where both sides may be `undefined`. -/
def jsOrOpt (a b : Option JVal) : Option JVal :=
  match a with
  | some v => if v.truthy then a else b
  | none => b

/-- JS `a || d` on strings, where `a` may be `undefined`; the empty
string is falsy. -/
def strOr (a : Option String) (d : String) : String :=
  match a with
  | some s => if s = "" then d else s
  | none => d

/-- Behaviour of `res.json` on an object literal: properties whose value is
`undefined` are dropped by JSON serialization. -/
def mkObj (l : List (String × Option JVal)) : JVal :=
  .obj (l.filterMap fun p => p.2.map fun v => (p.1, v))

/-- One observed `fetch` response: `ok`, `status`, raw body `text`,
and the JSON value `json` that `JSON.parse text` denotes. -/
structure HttpResp where
  ok : Bool
  status : Nat
  text : String
  json : JVal


/-- The remote responses one handler execution can observe: the OAuth
token endpoint response and the response of the single API call. -/
structure Env where
  tokenResp : HttpResp
  apiResp : HttpResp


/-- An outbound provider call actually performed. -/
structure Call where
  method : String
  path : String
  reqBody : Option JVal


/-- The pieces of the incoming Express request the handlers read. -/
structure Request where
  xForwardedProto : Option String
  protocol : String
  host : String
  body : JVal


/-- What a handler sends back, plus the outbound calls it made. -/
structure HandlerResult where
  status : Nat
  body : JVal
  calls : List Call


/-- The environment variables consumed by the server. -/
structure Config where
  clientId : Option String
  apiBase : Option String


/-- The source line `const BASE = process.env.PAYPAL_API_BASE || "https://api-m.sandbox.paypal.com"`. -/
def Config.base (cfg : Config) : String :=
  strOr cfg.apiBase "https://api-m.sandbox.paypal.com"

/-- The token-endpoint call performed by `getAccessToken`
(`POST {BASE}/v1/oauth2/token`, form-encoded body, no JSON body). -/
def tokenCall : Call :=
  { method := "POST", path := "/v1/oauth2/token", reqBody := none }

/-- The helper `getAccessToken()`: if the token response is not ok, throws
`OAuth failed: {status} {text}`; otherwise returns
`JSON.parse(text).access_token`. -/
def getAccessToken (env : Env) : Except String (Option JVal) :=
  if env.tokenResp.ok then
    .ok (jGet env.tokenResp.json "access_token")
  else
    .error ("OAuth failed: " ++ toString env.tokenResp.status ++ " " ++ env.tokenResp.text)

/-- The helper `pp(method, path, body)`: acquires a token (propagating its error,
in which case the API fetch never happens), performs the API fetch,
throws `PayPal {method} {path} {status}: {text}` when the response is
not ok, and otherwise returns the parsed body, or `{}` when the body
text is empty.  The second component is the list of outbound calls
performed. -/
def pp (env : Env) (method path : String) (reqBody : Option JVal) :
    Except String JVal × List Call :=
  match getAccessToken env with
  | .error e => (.error e, [tokenCall])
  | .ok _tok =>
    let c : Call := { method := method, path := path, reqBody := reqBody }
    if env.apiResp.ok then
      (.ok (if env.apiResp.text = "" then JVal.obj [] else env.apiResp.json),
       [tokenCall, c])
    else
      (.error ("PayPal " ++ method ++ " " ++ path ++ " "
                ++ toString env.apiResp.status ++ ": " ++ env.apiResp.text),
       [tokenCall, c])

/-- JS strict equality `v === "s"` of a possibly-undefined value
against a string literal: true exactly when `v` is that string. -/
def isStrEq (v : Option JVal) (s : String) : Bool :=
  match v with
  | some (.str t) => t = s
  | _ => false

/-- The expression `(tokenRes.links || []).find(l => l.rel === "approval_url")`:
returns the first list entry whose `rel` property is the string
`"approval_url"`; accessing `.rel` on a `null` entry throws a
TypeError (caught by the handler's try/catch). -/
def findApprovalLink : List JVal → Except String (Option JVal)
  | [] => .ok none
  | l :: ls =>
    match l with
    | .null => .error "Cannot read properties of null"
    | _ =>
      if isStrEq (jGet l "rel") "approval_url" then .ok (some l)
      else findApprovalLink ls

/-- The billing-plan payload the create-token handler submits,
including the derived or passed-through return/cancel URLs. -/
def createTokenPayload (req : Request) : JVal :=
  let proto := strOr req.xForwardedProto (strOr (some req.protocol) "https")
  let baseUrl := proto ++ "://" ++ req.host
  let returnUrl := jsOr (jGet req.body "returnUrl") (.str (baseUrl ++ "/ba.html?approved=1"))
  let cancelUrl := jsOr (jGet req.body "cancelUrl") (.str (baseUrl ++ "/ba.html?canceled=1"))
  .obj [("description", .str "Consent for future charges (BA)"),
        ("payer", .obj [("payment_method", .str "PAYPAL")]),
        ("plan", .obj [("type", .str "MERCHANT_INITIATED_BILLING"),
                       ("merchant_preferences",
                        .obj [("return_url", returnUrl),
                              ("cancel_url", cancelUrl)])])]

/-- Field `return_url` inside the payload the create-token handler
submits (`payload.plan.merchant_preferences.return_url`). -/
def submittedReturnUrl (req : Request) : Option JVal :=
  (jGet (createTokenPayload req) "plan").bind fun p =>
    (jGet p "merchant_preferences").bind fun m => jGet m "return_url"

/-- Field `cancel_url` inside the payload the create-token handler
submits (`payload.plan.merchant_preferences.cancel_url`). -/
def submittedCancelUrl (req : Request) : Option JVal :=
  (jGet (createTokenPayload req) "plan").bind fun p =>
    (jGet p "merchant_preferences").bind fun m => jGet m "cancel_url"

/-- Handler for `POST /api/ba/create-token`. -/
def createToken (env : Env) (req : Request) : HandlerResult :=
  match pp env "POST" "/v1/billing-agreements/agreement-tokens"
        (some (createTokenPayload req)) with
  | (.error e, cs) => { status := 500, body := .obj [("error", .str e)], calls := cs }
  | (.ok tokenRes, cs) =>
    if tokenRes.isNull then
      -- `tokenRes.links` on a null parse throws before anything else
      { status := 500,
        body := .obj [("error", .str "Cannot read properties of null (reading links)")],
        calls := cs }
    else
      match jsOr (jGet tokenRes "links") (.arr []) with
      | .arr links =>
        match findApprovalLink links with
        | .error e => { status := 500, body := .obj [("error", .str e)], calls := cs }
        | .ok approve =>
          { status := 200,
            body := mkObj
              [("id", jsOrOpt (jGet tokenRes "token_id") (jGet tokenRes "id")),
               ("approve_url", approve.bind fun l => jGet l "href"),
               ("raw", some tokenRes)],
            calls := cs }
      | _ =>
        -- a truthy non-array `links` value has no `.find` method
        { status := 500,
          body := .obj [("error", .str "tokenRes.links.find is not a function")],
          calls := cs }

/-- Handler for `POST /api/ba/create-agreement`. -/
def createAgreement (env : Env) (req : Request) : HandlerResult :=
  let tokenId := jGet req.body "token_id"
  if truthyOpt tokenId then
    match pp env "POST" "/v1/billing-agreements/agreements"
          (some (.obj [("token_id", tokenId.getD .null)])) with
    | (.error e, cs) => { status := 500, body := .obj [("error", .str e)], calls := cs }
    | (.ok agr, cs) =>
      if agr.isNull then
        -- `agr.id` on a null parse throws
        { status := 500,
          body := .obj [("error", .str "Cannot read properties of null (reading id)")],
          calls := cs }
      else
        { status := 200,
          body := mkObj [("agreement_id", jGet agr "id"),
                         ("state", jGet agr "state"),
                         ("raw", some agr)],
          calls := cs }
  else
    { status := 400, body := .obj [("error", .str "token_id required")], calls := [] }

/-- The orders-creation payload the charge handler submits. -/
def chargeOrderPayload (agreementId amount currency : JVal) : JVal :=
  .obj [("intent", .str "CAPTURE"),
        ("payment_source",
         .obj [("token", .obj [("id", agreementId),
                               ("type", .str "BILLING_AGREEMENT")])]),
        ("purchase_units",
         .arr [.obj [("amount", .obj [("currency_code", currency),
                                      ("value", amount)])]])]

/-- Handler for `POST /api/ba/charge`.  Destructuring defaults
(`amount = "10.00"`, `currency = "USD"`) apply only when the property
is absent.  On a successful order creation the source evaluates
`res.json({ order_id: order.id, capture })`: `order.id` is evaluated
first and throws a TypeError when the parsed order is null; otherwise
`capture`, which is not bound in any enclosing scope, throws a
ReferenceError with message `capture is not defined`.  Either throw is
caught by the try/catch. -/
def charge (env : Env) (req : Request) : HandlerResult :=
  let agreementId := jGet req.body "agreement_id"
  let amount := (jGet req.body "amount").getD (.str "10.00")
  let currency := (jGet req.body "currency").getD (.str "USD")
  if truthyOpt agreementId then
    match pp env "POST" "/v2/checkout/orders"
          (some (chargeOrderPayload (agreementId.getD .null) amount currency)) with
    | (.error e, cs) => { status := 500, body := .obj [("error", .str e)], calls := cs }
    | (.ok order, cs) =>
      if order.isNull then
        -- the response literal evaluates `order.id` first, which
        -- throws when the parsed order is null
        { status := 500,
          body := .obj [("error", .str "Cannot read properties of null (reading id)")],
          calls := cs }
      else
        -- `order.id` succeeds, then the unbound `capture` throws
        { status := 500,
          body := .obj [("error", .str "capture is not defined")],
          calls := cs }
  else
    { status := 400, body := .obj [("error", .str "agreement_id required")], calls := [] }

/-- Handler for `GET /api/config`. -/
def getConfig (cfg : Config) : HandlerResult :=
  { status := 200,
    body := mkObj [("clientId", cfg.clientId.map .str),
                   ("base", some (.str cfg.base))],
    calls := [] }

/-- A successful remote response with body `{}`. -/
def respOk : HttpResp := { ok := true, status := 200, text := "{}", json := .obj [] }

/-- A failed remote response. -/
def respBad : HttpResp := { ok := false, status := 401, text := "denied", json := .null }

/-- Both remote calls succeed. -/
def envOk : Env := { tokenResp := respOk, apiResp := respOk }

/-- The OAuth token call fails. -/
def envTokenFail : Env := { tokenResp := respBad, apiResp := respOk }

/-- A request fixture with a valid `agreement_id`. -/
def reqCharge : Request :=
  { xForwardedProto := none, protocol := "http", host := "h",
    body := .obj [("agreement_id", .str "B-1")] }

/-- A request fixture with a valid `token_id`. -/
def reqAgreement : Request :=
  { xForwardedProto := none, protocol := "http", host := "h",
    body := .obj [("token_id", .str "BA-1")] }

/-- A request fixture with an empty body object. -/
def reqEmpty : Request :=
  { xForwardedProto := none, protocol := "http", host := "h", body := .obj [] }

/-- A request fixture supplying an empty-string `returnUrl`. -/
def reqEmptyReturn : Request :=
  { xForwardedProto := none, protocol := "http", host := "h",
    body := .obj [("returnUrl", .str "")] }

theorem pp_token_fail (env : Env) (m p : String) (b : Option JVal)
    (h : env.tokenResp.ok = false) :
    pp env m p b =
      (.error ("OAuth failed: " ++ toString env.tokenResp.status ++ " "
                ++ env.tokenResp.text),
       [tokenCall]) := by
  simp [pp, getAccessToken, h]

/-- Claim C2: a create-agreement request missing `token_id`, and a
charge request missing `agreement_id`, each get HTTP 400 with an error
message and trigger no outbound call at all. -/
theorem c2_missing_field_400 (env : Env) (reqA reqC : Request)
    (h1 : jGet reqA.body "token_id" = none)
    (h2 : jGet reqC.body "agreement_id" = none) :
    ((createAgreement env reqA).status = 400 ∧
     (createAgreement env reqA).body = .obj [("error", .str "token_id required")] ∧
     (createAgreement env reqA).calls = []) ∧
    ((charge env reqC).status = 400 ∧
     (charge env reqC).body = .obj [("error", .str "agreement_id required")] ∧
     (charge env reqC).calls = []) := by
  refine ⟨⟨?_, ?_, ?_⟩, ⟨?_, ?_, ?_⟩⟩ <;>
    simp [createAgreement, charge, h1, h2, truthyOpt]

theorem c2_witness :
    ((createAgreement envOk reqEmpty).status = 400 ∧
     (createAgreement envOk reqEmpty).body = .obj [("error", .str "token_id required")] ∧
     (createAgreement envOk reqEmpty).calls = []) ∧
    ((charge envOk reqEmpty).status = 400 ∧
     (charge envOk reqEmpty).body = .obj [("error", .str "agreement_id required")] ∧
     (charge envOk reqEmpty).calls = []) :=
  c2_missing_field_400 envOk reqEmpty reqEmpty rfl rfl

/-- Claim C10: a present-but-falsy `token_id` (resp. `agreement_id`)
is rejected exactly like a missing one: HTTP 400, the same error
message, and no outbound call. -/
theorem c10_falsy_field_400 (env : Env) (reqA reqC : Request) (v w : JVal)
    (h1 : jGet reqA.body "token_id" = some v) (h1f : v.truthy = false)
    (h2 : jGet reqC.body "agreement_id" = some w) (h2f : w.truthy = false) :
    ((createAgreement env reqA).status = 400 ∧
     (createAgreement env reqA).body = .obj [("error", .str "token_id required")] ∧
     (createAgreement env reqA).calls = []) ∧
    ((charge env reqC).status = 400 ∧
     (charge env reqC).body = .obj [("error", .str "agreement_id required")] ∧
     (charge env reqC).calls = []) := by
  refine ⟨⟨?_, ?_, ?_⟩, ⟨?_, ?_, ?_⟩⟩ <;>
    simp [createAgreement, charge, h1, h1f, h2, h2f, truthyOpt]

theorem c10_witness :
    ((createAgreement envOk
        { reqEmpty with body := .obj [("token_id", .str "")] }).status = 400 ∧
     (createAgreement envOk
        { reqEmpty with body := .obj [("token_id", .str "")] }).body
       = .obj [("error", .str "token_id required")] ∧
     (createAgreement envOk
        { reqEmpty with body := .obj [("token_id", .str "")] }).calls = []) ∧
    ((charge envOk
        { reqEmpty with body := .obj [("agreement_id", .num 0)] }).status = 400 ∧
     (charge envOk
        { reqEmpty with body := .obj [("agreement_id", .num 0)] }).body
       = .obj [("error", .str "agreement_id required")] ∧
     (charge envOk
        { reqEmpty with body := .obj [("agreement_id", .num 0)] }).calls = []) :=
  c10_falsy_field_400 envOk
    { reqEmpty with body := .obj [("token_id", .str "")] }
    { reqEmpty with body := .obj [("agreement_id", .num 0)] }
    (.str "") (.num 0) rfl rfl rfl rfl

/-- Claim C3: when the OAuth token endpoint responds non-success,
`getAccessToken` fails with the upstream status and raw body in its
message, and each handler that reaches it (create-token always;
create-agreement and charge once their required field passes
validation) returns HTTP 500 with that same message as the JSON
error. -/
theorem c3_oauth_failure_propagates (env : Env) (reqT reqA reqC : Request)
    (hnok : env.tokenResp.ok = false)
    (tid : JVal) (h1 : jGet reqA.body "token_id" = some tid) (h1t : tid.truthy = true)
    (aid : JVal) (h2 : jGet reqC.body "agreement_id" = some aid) (h2t : aid.truthy = true) :
    getAccessToken env =
      .error ("OAuth failed: " ++ toString env.tokenResp.status ++ " "
               ++ env.tokenResp.text) ∧
    ((createToken env reqT).status = 500 ∧
     (createToken env reqT).body =
       .obj [("error", .str ("OAuth failed: " ++ toString env.tokenResp.status ++ " "
                              ++ env.tokenResp.text))]) ∧
    ((createAgreement env reqA).status = 500 ∧
     (createAgreement env reqA).body =
       .obj [("error", .str ("OAuth failed: " ++ toString env.tokenResp.status ++ " "
                              ++ env.tokenResp.text))]) ∧
    ((charge env reqC).status = 500 ∧
     (charge env reqC).body =
       .obj [("error", .str ("OAuth failed: " ++ toString env.tokenResp.status ++ " "
                              ++ env.tokenResp.text))]) := by
  refine ⟨by simp [getAccessToken, hnok], ⟨?_, ?_⟩, ⟨?_, ?_⟩, ⟨?_, ?_⟩⟩ <;>
    simp [createToken, createAgreement, charge, h1, h1t, h2, h2t, truthyOpt,
          pp_token_fail _ _ _ _ hnok]

theorem c3_witness :
    getAccessToken envTokenFail =
      .error ("OAuth failed: " ++ toString envTokenFail.tokenResp.status ++ " "
               ++ envTokenFail.tokenResp.text) ∧
    ((createToken envTokenFail reqEmpty).status = 500 ∧
     (createToken envTokenFail reqEmpty).body =
       .obj [("error", .str ("OAuth failed: " ++ toString envTokenFail.tokenResp.status
                              ++ " " ++ envTokenFail.tokenResp.text))]) ∧
    ((createAgreement envTokenFail reqAgreement).status = 500 ∧
     (createAgreement envTokenFail reqAgreement).body =
       .obj [("error", .str ("OAuth failed: " ++ toString envTokenFail.tokenResp.status
                              ++ " " ++ envTokenFail.tokenResp.text))]) ∧
    ((charge envTokenFail reqCharge).status = 500 ∧
     (charge envTokenFail reqCharge).body =
       .obj [("error", .str ("OAuth failed: " ++ toString envTokenFail.tokenResp.status
                              ++ " " ++ envTokenFail.tokenResp.text))]) :=
  c3_oauth_failure_propagates envTokenFail reqEmpty reqAgreement reqCharge rfl
    (.str "BA-1") rfl rfl (.str "B-1") rfl rfl

/-- Claim C8: `GET /api/config` always answers HTTP 200, makes no
outbound call, changes no state (it is a pure function of the
configuration), and its body is exactly the public client identifier
and the provider base URL. -/
theorem c8_config_endpoint (cfg : Config) (cid : String)
    (h : cfg.clientId = some cid) :
    (getConfig cfg).status = 200 ∧
    (getConfig cfg).calls = [] ∧
    (getConfig cfg).body = .obj [("clientId", .str cid), ("base", .str cfg.base)] := by
  refine ⟨rfl, rfl, ?_⟩
  simp [getConfig, mkObj, h]

theorem c8_witness :
    (getConfig { clientId := some "cid-1", apiBase := none }).status = 200 ∧
    (getConfig { clientId := some "cid-1", apiBase := none }).calls = [] ∧
    (getConfig { clientId := some "cid-1", apiBase := none }).body =
      .obj [("clientId", .str "cid-1"),
            ("base", .str (Config.base { clientId := some "cid-1", apiBase := none }))] :=
  c8_config_endpoint { clientId := some "cid-1", apiBase := none } "cid-1" rfl

/-- Claim C5, counterexample: a request that supplies `returnUrl` as
the empty string (a present, supplied value) does not get that value
submitted unchanged — the handler submits the derived default URL
instead, because `||` treats every falsy supplied value as absent. -/
theorem c5_counterexample :
    jGet reqEmptyReturn.body "returnUrl" = some (.str "") ∧
    submittedReturnUrl reqEmptyReturn =
      some (.str "http://h/ba.html?approved=1") ∧
    ¬ submittedReturnUrl reqEmptyReturn = some (.str "") := by
  refine ⟨rfl, rfl, ?_⟩
  intro h
  rw [show submittedReturnUrl reqEmptyReturn =
        some (JVal.str "http://h/ba.html?approved=1") from rfl] at h
  injection h with h1
  injection h1 with h2
  exact absurd h2 (by decide)

/-- Claim C5, amended: when the body omits `returnUrl` (resp.
`cancelUrl`), the URL submitted to the provider is
`{scheme}://{host}/ba.html?approved=1` (resp. `...?canceled=1`), where
`scheme` is the `x-forwarded-proto` header when present (and
non-empty), else the request's own (non-empty) protocol, and `host` is
the request's host header; a supplied truthy value is used unchanged,
while a supplied falsy value falls back to the same derived default. -/
theorem c5_url_defaults (req : Request)
    (hx : ∀ s, req.xForwardedProto = some s → ¬ s = "")
    (hpr : ¬ req.protocol = "") :
    (jGet req.body "returnUrl" = none →
       submittedReturnUrl req =
         some (.str (req.xForwardedProto.getD req.protocol ++ "://" ++ req.host
                      ++ "/ba.html?approved=1"))) ∧
    (jGet req.body "cancelUrl" = none →
       submittedCancelUrl req =
         some (.str (req.xForwardedProto.getD req.protocol ++ "://" ++ req.host
                      ++ "/ba.html?canceled=1"))) ∧
    (∀ v, jGet req.body "returnUrl" = some v → v.truthy = true →
       submittedReturnUrl req = some v) ∧
    (∀ v, jGet req.body "cancelUrl" = some v → v.truthy = true →
       submittedCancelUrl req = some v) ∧
    (∀ v, jGet req.body "returnUrl" = some v → v.truthy = false →
       submittedReturnUrl req =
         some (.str (req.xForwardedProto.getD req.protocol ++ "://" ++ req.host
                      ++ "/ba.html?approved=1"))) ∧
    (∀ v, jGet req.body "cancelUrl" = some v → v.truthy = false →
       submittedCancelUrl req =
         some (.str (req.xForwardedProto.getD req.protocol ++ "://" ++ req.host
                      ++ "/ba.html?canceled=1"))) := by
  have hscheme : strOr req.xForwardedProto (strOr (some req.protocol) "https") =
      req.xForwardedProto.getD req.protocol := by
    cases hx0 : req.xForwardedProto with
    | none => simp [strOr, hpr]
    | some s => simp [strOr, hx s hx0]
  have hret : submittedReturnUrl req =
      some (jsOr (jGet req.body "returnUrl")
        (.str (strOr req.xForwardedProto (strOr (some req.protocol) "https")
               ++ "://" ++ req.host ++ "/ba.html?approved=1"))) := rfl
  have hcan : submittedCancelUrl req =
      some (jsOr (jGet req.body "cancelUrl")
        (.str (strOr req.xForwardedProto (strOr (some req.protocol) "https")
               ++ "://" ++ req.host ++ "/ba.html?canceled=1"))) := rfl
  rw [hscheme] at hret hcan
  refine ⟨?_, ?_, ?_, ?_, ?_, ?_⟩
  · intro h; rw [hret, h]; rfl
  · intro h; rw [hcan, h]; rfl
  · intro v hv hvt; rw [hret, hv]; simp [jsOr, hvt]
  · intro v hv hvt; rw [hcan, hv]; simp [jsOr, hvt]
  · intro v hv hvt; rw [hret, hv]; simp [jsOr, hvt]
  · intro v hv hvt; rw [hcan, hv]; simp [jsOr, hvt]

theorem c5_witness :
    (jGet reqEmpty.body "returnUrl" = none →
       submittedReturnUrl reqEmpty =
         some (.str (reqEmpty.xForwardedProto.getD reqEmpty.protocol ++ "://"
                      ++ reqEmpty.host ++ "/ba.html?approved=1"))) ∧
    (jGet reqEmpty.body "cancelUrl" = none →
       submittedCancelUrl reqEmpty =
         some (.str (reqEmpty.xForwardedProto.getD reqEmpty.protocol ++ "://"
                      ++ reqEmpty.host ++ "/ba.html?canceled=1"))) ∧
    (∀ v, jGet reqEmpty.body "returnUrl" = some v → v.truthy = true →
       submittedReturnUrl reqEmpty = some v) ∧
    (∀ v, jGet reqEmpty.body "cancelUrl" = some v → v.truthy = true →
       submittedCancelUrl reqEmpty = some v) ∧
    (∀ v, jGet reqEmpty.body "returnUrl" = some v → v.truthy = false →
       submittedReturnUrl reqEmpty =
         some (.str (reqEmpty.xForwardedProto.getD reqEmpty.protocol ++ "://"
                      ++ reqEmpty.host ++ "/ba.html?approved=1"))) ∧
    (∀ v, jGet reqEmpty.body "cancelUrl" = some v → v.truthy = false →
       submittedCancelUrl reqEmpty =
         some (.str (reqEmpty.xForwardedProto.getD reqEmpty.protocol ++ "://"
                      ++ reqEmpty.host ++ "/ba.html?canceled=1"))) :=
  c5_url_defaults reqEmpty (by intro s h; cases h) (by decide)

end ServerBA
